import Mathlib

/-!
Verification development for the plotari-ai conversation orchestration engine.

The Python services under `src/services/chatbot/` are shallowly embedded as
executable Lean definitions: dictionaries with optional keys become structures
of `Option` fields, `try/except` blocks become `Except`-valued bodies wrapped
by a total catching function, and the external collaborators (OpenAI
completion service, Weaviate search backend, Supabase persistence store) are
modelled as oracle records passed in as parameters.

Python string primitives (`in`, `.lower()`, `.strip()`, regular expressions)
are re-implemented over `List Char` with structural recursion so that every
definition evaluates inside the kernel.
-/

namespace Plotari

/-! ### Python string primitives -/

/-- Whitespace characters stripped by Python's `str.strip()` (ASCII subset). -/
def isSpaceChar (c : Char) : Bool :=
  c == ' ' || c == '\t' || c == '\n' || c == '\r' || c == '\x0b' || c == '\x0c'

/-- Strips leading and trailing whitespace from a character list. -/
def trimChars (l : List Char) : List Char :=
  ((l.dropWhile isSpaceChar).reverse.dropWhile isSpaceChar).reverse

/-- Model of Python `s.strip()`. -/
def trimString (s : String) : String :=
  String.mk (trimChars s.data)

/-- Model of Python `s.lower()` (ASCII letters). -/
def lowerString (s : String) : String :=
  String.mk (s.data.map Char.toLower)

/-- Does the text start with the pattern? -/
def charsStartWith : List Char → List Char → Bool
  | [], _ => true
  | _ :: _, [] => false
  | p :: ps, c :: cs => p == c && charsStartWith ps cs

/-- Does the pattern occur anywhere in the text? -/
def charsContain (pat : List Char) : List Char → Bool
  | [] => charsStartWith pat []
  | c :: cs => charsStartWith pat (c :: cs) || charsContain pat cs

/-- Model of Python `pat in s` for strings. -/
def strContains (s pat : String) : Bool :=
  charsContain pat.data s.data

/-- Word characters for the `\b` boundary and `\w` class of Python `re`. -/
def isWordChar (c : Char) : Bool :=
  c.isAlphanum || c == '_'

/-- Splits a character list into its maximal runs of word characters. -/
def wordRunsAux : List Char → List Char → List (List Char)
  | [], acc => if acc.isEmpty then [] else [acc.reverse]
  | c :: cs, acc =>
      if isWordChar c then wordRunsAux cs (c :: acc)
      else if acc.isEmpty then wordRunsAux cs []
      else acc.reverse :: wordRunsAux cs []

/-- Model of `re.findall(r'\b(\d{minLen,})\b', s)`: a match of that pattern is
exactly a maximal run of word characters consisting solely of digits with
length at least `minLen`, in order of appearance. -/
def digitTokens (minLen : Nat) (s : String) : List String :=
  ((wordRunsAux s.data []).filter
      (fun r => r.all Char.isDigit && decide (minLen ≤ r.length))).map String.mk

/-- Numeric value of a digit run, as computed by Python `int`. -/
def natOfDigits (l : List Char) : Nat :=
  l.foldl (fun n c => n * 10 + (c.toNat - '0'.toNat)) 0

/-- Model of `re.search(r'(\d+)\s*(?:metros?|meters?|m)', s)`: the first
maximal digit run that is followed, after optional whitespace, by the letter
`m`; the captured group is the full digit run. -/
def poiRadiusSearch : List Char → Option Nat
  | [] => none
  | c :: cs =>
      if c.isDigit then
        let run := List.takeWhile Char.isDigit (c :: cs)
        let rest := List.dropWhile Char.isDigit (c :: cs)
        match List.dropWhile isSpaceChar rest with
        | 'm' :: _ => some (natOfDigits run)
        | _ => poiRadiusSearch cs
      else poiRadiusSearch cs

/-- Truthiness of an optional string: Python treats both `None` and the empty
string as falsy. -/
def optTruthy : Option String → Bool
  | none => false
  | some s => !(s == "")

/-! ### Data model (`src/models/property.py`) -/

/-- Geographic coordinate pair (coordinates are only passed through, so they
are modelled as integers). -/
structure Geo where
  latitude : Int
  longitude : Int
deriving DecidableEq, Repr, Inhabited

/-- Real-estate property; only the fields the chatbot services read are kept,
`address`/`city`/`price` standing in for the remaining payload so that two
properties with equal `zpid` can still differ. -/
structure Property where
  zpid : String
  address : String
  city : String
  price : Option Int := none
  geo : Geo
deriving DecidableEq, Repr, Inhabited

/-- Point of interest. -/
structure POI where
  name : String
  category : String
  geo : Geo
deriving DecidableEq, Repr, Inhabited

/-! ### Search intent dictionary (`intent_extractor_service.py`) -/

/-- Values stored under the `filters` key of a search intent. Absent keys and
keys explicitly set to `None` are both modelled as `none`, which is
observationally equivalent since all reads go through `dict.get`. -/
structure Filters where
  city : Option String := none
  state : Option String := none
  min_price : Option Int := none
  max_price : Option Int := none
  min_bedrooms : Option Int := none
  max_bedrooms : Option Int := none
  min_bathrooms : Option Int := none
  max_bathrooms : Option Int := none
  latitude : Option Int := none
  longitude : Option Int := none
  radius : Option Nat := none
  poi_category : Option String := none
  poi_radius : Option Nat := none
  property_id : Option String := none
deriving DecidableEq, Repr, Inhabited

/-- The loosely-typed intent dictionary. `filters` distinguishes three states
of the Python dict: key absent (`none`), key present with a non-dict value
(`some none`), and key present with a dict (`some (some f)`). -/
structure SearchIntent where
  type : Option String := none
  query : Option String := none
  filters : Option (Option Filters) := none
  property_id : Option String := none
  property_ids : List String := []
  category : Option String := none
  radius : Option Nat := none
  search_mode : Option String := none
deriving DecidableEq, Repr, Inhabited

/-- Context dictionary handed to the intent extractor; only the keys
`propertyId` and `city` are ever read (`context.get(...)`). -/
structure Ctx where
  propertyId : Option String := none
  city : Option String := none
deriving DecidableEq, Repr, Inhabited

/-- Valid intent tags checked by `_validate_search_intent`. -/
def valid_types : List String :=
  ["property_search", "property_detail", "poi_search", "property_compare",
   "general_conversation"]

/-- Model of `IntentExtractorService._validate_search_intent`: the candidate
must be a dict (`some`), contain the keys `type`, `query` and `filters`, have
a valid tag, a query that is non-empty after stripping, and a dict-valued
`filters`. -/
def validate_search_intent (intent : Option SearchIntent) : Bool :=
  match intent with
  | none => false
  | some i =>
      i.type.isSome && i.query.isSome && i.filters.isSome &&
      (match i.type with
       | some t => valid_types.contains t
       | none => false) &&
      (match i.query with
       | some q => !(trimString q == "")
       | none => false) &&
      (match i.filters with
       | some (some _) => true
       | _ => false)

def greeting_keywords : List String :=
  ["hello", "hi", "hey", "hola", "buenos días", "good morning",
   "good afternoon", "good evening", "buenas tardes", "buenas noches"]

def question_keywords : List String :=
  ["how are you", "cómo estás", "what can you do", "qué puedes hacer",
   "help", "ayuda", "what do you do"]

def thanks_keywords : List String :=
  ["thank", "thanks", "gracias", "appreciate"]

def goodbye_keywords : List String :=
  ["bye", "goodbye", "see you", "adiós", "hasta luego", "chao"]

def property_keywords : List String :=
  ["house", "home", "property", "condo", "apartment", "bedroom", "bathroom",
   "price", "buy", "rent", "casa", "propiedad", "apartamento", "habitación"]

def compare_keywords : List String :=
  ["comparar", "compare", "vs", "versus"]

def detail_keywords : List String :=
  ["detalle", "details", "info", "información"]

def poi_keywords : List String :=
  ["cerca", "near", "poi", "restaurantes", "escuelas", "schools"]

/-- Model of `IntentExtractorService._get_default_search_intent`. -/
def get_default_search_intent (message : String) : SearchIntent :=
  { type := some "property_search", query := some message,
    filters := some (some {}) }

/-- Model of `IntentExtractorService._extract_basic_search_intent`. -/
def extract_basic_search_intent (message : String) (context : Ctx) : SearchIntent :=
  { type := some "property_search", query := some message,
    filters := some (some { city := context.city,
                            property_id := context.propertyId }) }

/-- Model of `IntentExtractorService._extract_detail_intent`: reuse the
context property id when truthy, otherwise the first bare numeric token of
the message (`re.search(r'\b(\d+)\b', message)`). -/
def extract_detail_intent (message : String) (context : Ctx) : SearchIntent :=
  let property_id := context.propertyId
  let property_id :=
    if optTruthy property_id then property_id
    else
      match (digitTokens 1 message).head? with
      | some t => some t
      | none => property_id
  { type := some "property_detail", property_id := property_id,
    query := some message }

/-- Model of `IntentExtractorService._extract_poi_intent`. Note that the
returned `poi_search` variant carries no `filters` key. -/
def extract_poi_intent (message : String) (context : Ctx) : SearchIntent :=
  let property_id := context.propertyId
  let ml := lowerString message
  let category : Option String :=
    if ["escuela", "school", "colegio"].any (strContains ml) then
      some "school"
    else if ["restaurante", "restaurant", "comida"].any (strContains ml) then
      some "restaurant"
    else if ["hospital", "clínica", "médico"].any (strContains ml) then
      some "healthcare"
    else if ["tienda", "shop", "comercio"].any (strContains ml) then
      some "shopping"
    else none
  let radius := (poiRadiusSearch ml.data).getD 1500
  if !(optTruthy property_id) then
    { type := some "property_search",
      query := some (match category with
                     | some c => "home near " ++ c
                     | none => message),
      filters := some (some { poi_category := category,
                              poi_radius := some radius }),
      search_mode := some "near_pois" }
  else
    { type := some "poi_search", property_id := property_id,
      category := category, radius := some radius, query := some message }

/-- Model of `IntentExtractorService._extract_compare_intent`: all numeric
tokens of length at least 8 in message order, the context property id
prepended when truthy and not already present, the list capped at 5. The
returned dict carries no `filters` key. -/
def extract_compare_intent (message : String) (context : Ctx) : SearchIntent :=
  let property_ids := digitTokens 8 message
  let property_ids :=
    match context.propertyId with
    | some pid =>
        if (!(pid == "")) && !(property_ids.contains pid) then
          pid :: property_ids
        else property_ids
    | none => property_ids
  { type := some "property_compare", property_ids := property_ids.take 5,
    query := some message }

/-- General-conversation guard of the fallback classifier: any greeting,
question, thanks or goodbye keyword occurs in the lower-cased message. -/
def is_general_conversation_message (ml : String) : Bool :=
  greeting_keywords.any (strContains ml) ||
  question_keywords.any (strContains ml) ||
  thanks_keywords.any (strContains ml) ||
  goodbye_keywords.any (strContains ml)

/-- Property-domain guard of the fallback classifier. -/
def has_property_terms (ml : String) : Bool :=
  property_keywords.any (strContains ml)

/-- Model of `IntentExtractorService._extract_search_intent_fallback`:
general-conversation detection first, then compare, detail, proximity and
finally the basic search intent. -/
def extract_search_intent_fallback (message : String) (context : Ctx) : SearchIntent :=
  let ml := trimString (lowerString message)
  if is_general_conversation_message ml && !has_property_terms ml then
    { type := some "general_conversation", query := some message,
      filters := some (some {}) }
  else if compare_keywords.any (strContains ml) then
    extract_compare_intent message context
  else if detail_keywords.any (strContains ml) then
    extract_detail_intent message context
  else if poi_keywords.any (strContains ml) then
    extract_poi_intent message context
  else
    extract_basic_search_intent message context

/-- Response of the configured completion service to one extraction request:
`Except.error` models a raised exception, the inner `none` a non-dict reply. -/
abbrev OpenAIExtraction := Except String (Option SearchIntent)

/-- Model of `IntentExtractorService.extract_search_intent`: try the OpenAI
candidate, keep it only when it validates, otherwise fall back to the
rule-based classifier. The fallback result is returned without
re-validation. -/
def extract_search_intent (openai : Option OpenAIExtraction)
    (message : String) (context : Ctx) : SearchIntent :=
  match openai with
  | none => extract_search_intent_fallback message context
  | some (Except.error _) => extract_search_intent_fallback message context
  | some (Except.ok candidate) =>
      match candidate with
      | some i =>
          if validate_search_intent (some i) then i
          else extract_search_intent_fallback message context
      | none => extract_search_intent_fallback message context

/-- Whether `extract_search_intent` invokes the completion service: the guard
at line 24 of `intent_extractor_service.py` tests only that the service is
configured, before any inspection of the message. -/
def extract_invokes_openai (openai : Option OpenAIExtraction) : Bool :=
  openai.isSome

/-! ### Search backend requests and oracle (`property_search_service.py`,
`poi_search_service.py`, `src/models/property.py`) -/

/-- Model of `PropertySearchRequest` (the fields the dispatcher fills in). -/
structure PropertySearchRequest where
  query : Option String := none
  limit : Nat := 10
  city : Option String := none
  state : Option String := none
  min_price : Option Int := none
  max_price : Option Int := none
  min_bedrooms : Option Int := none
  max_bedrooms : Option Int := none
  min_bathrooms : Option Int := none
  max_bathrooms : Option Int := none
  latitude : Option Int := none
  longitude : Option Int := none
  radius : Option Nat := none
deriving DecidableEq, Repr, Inhabited

/-- Model of `POISearchRequest`. -/
structure POISearchRequest where
  property_id : String
  category : Option String := none
  radius : Nat := 1500
  limit : Nat := 10
deriving DecidableEq, Repr, Inhabited

/-- Pydantic construction of a `POISearchRequest`; the `radius` field carries
the constraints `ge=1, le=10000`, whose violation raises a validation error. -/
def mkPOISearchRequest (property_id : String) (category : Option String)
    (radius : Nat) (limit : Nat) : Except String POISearchRequest :=
  if radius < 1 || 10000 < radius then Except.error "radius out of range"
  else Except.ok { property_id := property_id, category := category,
                   radius := radius, limit := limit }

/-- Model of `PropertyCompareRequest`. -/
structure PropertyCompareRequest where
  property_ids : List String
deriving DecidableEq, Repr, Inhabited

/-- Pydantic construction of a `PropertyCompareRequest`: `min_items=2`,
`max_items=5`, and the field validator rejects duplicate ids
(`len(v) != len(set(v))`). -/
def mkPropertyCompareRequest (ids : List String) : Except String PropertyCompareRequest :=
  if ids.length < 2 then Except.error "at least 2 items required"
  else if 5 < ids.length then Except.error "at most 5 items allowed"
  else if ids.Nodup then Except.ok { property_ids := ids }
  else Except.error "Duplicate IDs are not allowed"

/-- Backend search response wrapper. -/
structure SearchResponse where
  properties : List Property
deriving DecidableEq, Repr, Inhabited

/-- Backend POI response wrapper. -/
structure POIResponse where
  pois : List POI
deriving DecidableEq, Repr, Inhabited

/-- Backend compare response wrapper. -/
structure CompareResponse where
  properties : List Property
deriving DecidableEq, Repr, Inhabited

/-- Property detail plus backend-provided similar properties. -/
structure PropertyDetail where
  property : Property
  similar_properties : List Property := []
deriving DecidableEq, Repr, Inhabited

/-- Oracle for the Weaviate search backend; each operation may raise
(`Except.error`). -/
structure Weaviate where
  search_properties : PropertySearchRequest → Except String SearchResponse
  get_pois_by_category : Option String → Except String (List POI)
  get_property_detail : String → Except String (Option PropertyDetail)
  search_pois : POISearchRequest → Except String POIResponse
  compare_properties : PropertyCompareRequest → Except String CompareResponse

/-- Reading `search_intent.get("filters", {})` followed by attribute access:
an absent key yields the empty dict, a present non-dict value raises
(`AttributeError`) as soon as `.get` is called on it. -/
def getFilters (intent : SearchIntent) : Except String Filters :=
  match intent.filters with
  | none => Except.ok {}
  | some none => Except.error "AttributeError: filters is not a dict"
  | some (some f) => Except.ok f

/-- Model of the inner `clean_value` helper of
`PropertySearchService.search_properties`: blank strings become `None`. -/
def clean_value : Option String → Option String
  | none => none
  | some s => if trimString s == "" then none else some s

/-- Catch wrapper: the `except Exception` handler of each dispatcher branch
converts any raised error into the given default. -/
def catchWith {α : Type} (default : α) : Except String α → α
  | Except.ok a => a
  | Except.error _ => default

/-- Accumulation loop of `search_properties_near_pois`: one geo-radius search
per POI (limit 5), results concatenated in POI order. The `hasattr` guards on
`poi.geo` are vacuous here because the typed `Geo` record always carries both
coordinates. -/
def accumulate_near_pois (w : Weaviate) (query : String) (poi_radius : Nat) :
    List POI → Except String (List Property)
  | [] => Except.ok []
  | poi :: rest => do
      let resp ← w.search_properties
        { query := some query, latitude := some poi.geo.latitude,
          longitude := some poi.geo.longitude, radius := some poi_radius,
          limit := 5 }
      let more ← accumulate_near_pois w query poi_radius rest
      Except.ok (resp.properties ++ more)

/-- Deduplication loop of `search_properties_near_pois`: keep the first
property seen for each `zpid` and stop as soon as `limit` entries are kept. -/
def dedupTake (limit : Nat) : List Property → List String → List Property
  | [], _ => []
  | p :: rest, seen =>
      if seen.contains p.zpid then dedupTake limit rest seen
      else if limit ≤ 1 then [p]
      else p :: dedupTake (limit - 1) rest (p.zpid :: seen)

/-- Body of `PropertySearchService.search_properties_near_pois` (the code
inside its `try`). -/
def search_properties_near_pois_body (weaviate : Option Weaviate)
    (intent : SearchIntent) : Except String (List Property) := do
  let filters ← getFilters intent
  let poi_category := filters.poi_category
  let poi_radius := filters.poi_radius.getD 2000
  match weaviate with
  | none => Except.ok []
  | some w => do
      let pois ← w.get_pois_by_category poi_category
      if pois.isEmpty then Except.ok []
      else
        match intent.query with
        | none => Except.error "KeyError: query"
        | some q => do
            let all ← accumulate_near_pois w q poi_radius pois
            Except.ok (dedupTake 10 all [])

/-- Model of `PropertySearchService.search_properties_near_pois`. -/
def search_properties_near_pois (weaviate : Option Weaviate)
    (intent : SearchIntent) : List Property :=
  catchWith [] (search_properties_near_pois_body weaviate intent)

/-- Body of `PropertySearchService.search_properties` (the code inside its
`try`). -/
def search_properties_body (weaviate : Option Weaviate)
    (intent : SearchIntent) : Except String (List Property) :=
  if !(optTruthy intent.query) || weaviate.isNone then Except.ok []
  else if intent.search_mode == some "near_pois" then
    Except.ok (search_properties_near_pois weaviate intent)
  else do
    let filters ← getFilters intent
    match weaviate with
    | none => Except.ok []
    | some w => do
        let resp ← w.search_properties
          { query := intent.query, limit := 10,
            city := clean_value filters.city,
            state := clean_value filters.state,
            min_price := filters.min_price, max_price := filters.max_price,
            min_bedrooms := filters.min_bedrooms,
            max_bedrooms := filters.max_bedrooms,
            min_bathrooms := filters.min_bathrooms,
            max_bathrooms := filters.max_bathrooms,
            latitude := filters.latitude, longitude := filters.longitude,
            radius := filters.radius }
        Except.ok resp.properties

/-- Model of `PropertySearchService.search_properties`. -/
def search_properties (weaviate : Option Weaviate) (intent : SearchIntent) :
    List Property :=
  catchWith [] (search_properties_body weaviate intent)

/-- Body of `PropertySearchService.get_property_detail`. -/
def get_property_detail_body (weaviate : Option Weaviate)
    (intent : SearchIntent) : Except String (Option PropertyDetail) :=
  match intent.property_id, weaviate with
  | some pid, some w =>
      if pid == "" then Except.ok none else w.get_property_detail pid
  | _, _ => Except.ok none

/-- Model of `PropertySearchService.get_property_detail`. -/
def get_property_detail (weaviate : Option Weaviate) (intent : SearchIntent) :
    Option PropertyDetail :=
  catchWith none (get_property_detail_body weaviate intent)

/-- Body of `PropertySearchService.compare_properties`. -/
def compare_properties_body (weaviate : Option Weaviate)
    (intent : SearchIntent) : Except String (List Property) :=
  if intent.property_ids.length < 2 || weaviate.isNone then Except.ok []
  else
    match weaviate with
    | none => Except.ok []
    | some w => do
        let req ← mkPropertyCompareRequest intent.property_ids
        let resp ← w.compare_properties req
        Except.ok resp.properties

/-- Model of `PropertySearchService.compare_properties`. -/
def compare_properties (weaviate : Option Weaviate) (intent : SearchIntent) :
    List Property :=
  catchWith [] (compare_properties_body weaviate intent)

/-- Body of `POISearchService.search_pois`. -/
def search_pois_body (weaviate : Option Weaviate) (intent : SearchIntent) :
    Except String (List POI) :=
  match intent.property_id, weaviate with
  | some pid, some w =>
      if pid == "" then Except.ok []
      else do
        let req ← mkPOISearchRequest pid intent.category
          (intent.radius.getD 1500) 10
        let resp ← w.search_pois req
        Except.ok resp.pois
  | _, _ => Except.ok []

/-- Model of `POISearchService.search_pois`. -/
def search_pois (weaviate : Option Weaviate) (intent : SearchIntent) :
    List POI :=
  catchWith [] (search_pois_body weaviate intent)

/-- Projection of the successful near-POIs path: the accumulated property
list (`all_properties` in the source) that the deduplication loop receives,
when every step up to it succeeds. -/
def near_pois_accumulated (weaviate : Option Weaviate) (intent : SearchIntent) :
    Option (List Property) :=
  match getFilters intent with
  | Except.error _ => none
  | Except.ok filters =>
      match weaviate with
      | none => none
      | some w =>
          match w.get_pois_by_category filters.poi_category with
          | Except.error _ => none
          | Except.ok pois =>
              if pois.isEmpty then none
              else
                match intent.query with
                | none => none
                | some q =>
                    (accumulate_near_pois w q (filters.poi_radius.getD 2000)
                      pois).toOption

/-! ### Conversation data model (`conversation_manager_service.py`,
`chatbot_service.py`) -/

/-- Integer truthiness: Python treats `None` and `0` as falsy. -/
def intTruthy : Option Int → Bool
  | none => false
  | some n => !(n == 0)

/-- The `user_preferences` map inside a session context. -/
structure Prefs where
  property_type : Option String := none
  preferred_city : Option String := none
  min_bedrooms : Option Int := none
  max_price : Option Int := none
deriving DecidableEq, Repr, Inhabited

/-- Light property reference stored in `context["last_properties"]`. -/
structure PropRef where
  zpid : String
  address : String
  price : Option Int
  city : String
deriving DecidableEq, Repr, Inhabited

/-- The `context` dict of a conversation. -/
structure SessionContext where
  last_search_intent : Option SearchIntent := none
  last_properties : List PropRef := []
  last_pois : List POI := []
  user_preferences : Prefs := {}
  current_location : Option String := none
  current_property : Option String := none
deriving DecidableEq, Repr, Inhabited

/-- One entry of a conversation's `messages` list. -/
structure ChatMessage where
  role : String
  content : String
  timestamp : String
  search_intent : Option SearchIntent := none
  properties_found : Option Nat := none
  pois_found : Option Nat := none
  properties : Option (List Property) := none
  pois : Option (List POI) := none
deriving DecidableEq, Repr, Inhabited

/-- A conversation session dict. `id` is the durable-store key assigned after
the first successful persist. -/
structure Conversation where
  user_id : String
  session_id : String
  created_at : String
  last_activity : Option String := none
  messages : List ChatMessage := []
  context : SessionContext := {}
  id : Option String := none
deriving DecidableEq, Repr, Inhabited

/-! ### Volatile cache (`cache_manager_service.py`) -/

/-- The in-process cache `_memory_cache`: a Python dict modelled as an
insertion-ordered association list with unique keys. -/
abbrev MemCache := List (String × Conversation)

/-- Assignment `d[k] = v` on an insertion-ordered dict: an existing key keeps
its position, a new key is appended. -/
def dictInsert (k : String) (v : Conversation) : MemCache → MemCache
  | [] => [(k, v)]
  | (k', v') :: rest =>
      if k' == k then (k, v) :: rest else (k', v') :: dictInsert k v rest

/-- Deletion `del d[k]`. -/
def dictDelete (k : String) (cache : MemCache) : MemCache :=
  cache.filter (fun e => !(e.1 == k))

/-- Sort key used by the eviction scan: `conversation.get("last_activity", "")`.
Timestamps are ISO-8601 strings, so the lexicographic string order used by
`min` coincides with chronological order for well-formed values. -/
def last_activity_key (conv : Conversation) : String :=
  conv.last_activity.getD ""

/-- Model of `min(keys, key=lambda k: cache[k].get("last_activity", ""))`:
the first entry (in insertion order) whose key value is minimal. -/
def oldest_session : MemCache → Option (String × Conversation)
  | [] => none
  | e :: rest =>
      match oldest_session rest with
      | none => some e
      | some b =>
          some (if last_activity_key b.2 < last_activity_key e.2 then b else e)

/-- Model of `CacheManagerService.add_to_memory_cache`: when the cache has
reached the configured capacity the entry with the oldest `last_activity` is
deleted before the assignment. -/
def add_to_memory_cache (cache_max_size : Nat) (cache : MemCache)
    (session_id : String) (conversation : Conversation) : MemCache :=
  let cache :=
    if cache_max_size ≤ cache.length then
      match oldest_session cache with
      | some oldest => dictDelete oldest.1 cache
      | none => cache
    else cache
  dictInsert session_id conversation cache

/-! ### Durable store (`supabase/conversation_repository.py`) -/

/-- One row of the `chatbot_conversations` table; the timestamp and expiry
columns used only by the maintenance pass are abstracted into the
`row_expired` oracle of `Oracles`. -/
structure SupabaseRow where
  id : String
  user_id : String
  session_id : String
  conversation_data : Conversation
  chat_summary : Option String := none
  is_active : Bool := true
deriving DecidableEq, Repr, Inhabited

/-- Selection  `.eq(user_id).eq(session_id).eq(is_active, True)` returning
the first row. -/
def supabase_get_row (rows : List SupabaseRow) (u s : String) :
    Option SupabaseRow :=
  rows.find? (fun r => r.user_id == u && r.session_id == s && r.is_active)

/-- Model of `SupabaseConversationService.get_conversation`: unwraps
`conversation_data` and attaches the row id. -/
def supabase_get_conversation (rows : List SupabaseRow) (u s : String) :
    Option Conversation :=
  match supabase_get_row rows u s with
  | some row => some { row.conversation_data with id := some row.id }
  | none => none

/-- Body of `SupabaseConversationRepository.delete_conversation` (the code
inside its `try`): the store client call either raises — `db_error` injects
that environment failure, `some e` standing for a raised client error — or
flips `is_active` on every matching active row and reports whether any row
was affected. -/
def supabase_delete_conversation_body (db_error : Option String)
    (rows : List SupabaseRow) (u s : String) :
    Except String (Bool × List SupabaseRow) :=
  match db_error with
  | some e => Except.error e
  | none =>
      let affected := rows.filter
        (fun r => r.user_id == u && r.session_id == s && r.is_active)
      Except.ok (!(affected.isEmpty),
        rows.map (fun r =>
          if r.user_id == u && r.session_id == s && r.is_active then
            { r with is_active := false }
          else r))

/-- Model of `SupabaseConversationRepository.delete_conversation`: any raised
client error is caught and reported as `False` with the table untouched
(lines 145-147; the service-level catch in
`SupabaseConversationService.clear_conversation` repeats the same
conversion and is collapsed into this one). -/
def supabase_delete_conversation (db_error : Option String)
    (rows : List SupabaseRow) (u s : String) : Bool × List SupabaseRow :=
  catchWith (false, rows) (supabase_delete_conversation_body db_error rows u s)

/-- Model of `SupabaseConversationRepository.create_conversation`: inserts a
fresh active row and returns the generated id. -/
def supabase_create_conversation (rows : List SupabaseRow) (next_id : Nat)
    (u s : String) (conv : Conversation) (chat_summary : Option String) :
    String × List SupabaseRow × Nat :=
  let rid := "row-" ++ toString next_id
  (rid,
   rows ++ [{ id := rid, user_id := u, session_id := s,
              conversation_data := conv, chat_summary := chat_summary }],
   next_id + 1)

/-- Model of `SupabaseConversationRepository.update_conversation`: rewrites
`conversation_data` on matching active rows (and `chat_summary` when one is
supplied), reporting whether any row matched. -/
def supabase_update_conversation (rows : List SupabaseRow) (u s : String)
    (conv : Conversation) (chat_summary : Option String) :
    Bool × List SupabaseRow :=
  let affected := rows.filter
    (fun r => r.user_id == u && r.session_id == s && r.is_active)
  (!(affected.isEmpty),
   rows.map (fun r =>
     if r.user_id == u && r.session_id == s && r.is_active then
       { r with conversation_data := conv,
                chat_summary := if chat_summary.isSome then chat_summary
                                else r.chat_summary }
     else r))

/-- Combined mutable state of the two cache tiers. -/
structure Store where
  mem : MemCache := []
  rows : List SupabaseRow := []
  cache_max_size : Nat := 100
  next_id : Nat := 0
deriving DecidableEq, Repr, Inhabited

/-! ### Conversation manager (`conversation_manager_service.py`) -/

/-- Memory-cache key `f"{user_id}:{session_id}"`. -/
def cache_key (user_id session_id : String) : String :=
  user_id ++ ":" ++ session_id

/-- Model of `ConversationManagerService.get_conversation`: volatile tier
first (touching `last_activity` in place), then read-through from the
durable tier, populating the volatile tier on a hit. -/
def get_conversation (st : Store) (user_id session_id now : String) :
    Option Conversation × Store :=
  let key := cache_key user_id session_id
  match st.mem.lookup key with
  | some conv =>
      let conv := { conv with last_activity := some now }
      (some conv, { st with mem := dictInsert key conv st.mem })
  | none =>
      match supabase_get_conversation st.rows user_id session_id with
      | some conv =>
          let conv := { conv with last_activity := some now }
          (some conv,
           { st with mem := add_to_memory_cache st.cache_max_size st.mem key conv })
      | none => (none, st)

/-- Fresh conversation dict created on a miss. -/
def new_conversation (user_id session_id now : String) : Conversation :=
  { user_id := user_id, session_id := session_id, created_at := now,
    last_activity := some now, messages := [], context := {} }

/-- Model of `ConversationManagerService.get_or_create_conversation`. -/
def get_or_create_conversation (st : Store) (user_id session_id now : String) :
    Conversation × Store :=
  match get_conversation st user_id session_id now with
  | (some conv, st') => (conv, st')
  | (none, st') =>
      let conv := new_conversation user_id session_id now
      (conv,
       { st' with mem := add_to_memory_cache st'.cache_max_size st'.mem
                    (cache_key user_id session_id) conv })

/-- Model of `ConversationManagerService.clear_conversation`: delete the
volatile entry when present, deactivate the durable rows, succeed when
either tier removed something. `db_error` is the durable-tier failure
injection of `supabase_delete_conversation` for this call. -/
def clear_conversation (db_error : Option String) (st : Store)
    (user_id session_id : String) : Bool × Store :=
  let key := cache_key user_id session_id
  let memHit := (st.mem.lookup key).isSome
  let mem' := if memHit then dictDelete key st.mem else st.mem
  let deleted := supabase_delete_conversation db_error st.rows user_id session_id
  (memHit || deleted.1, { st with mem := mem', rows := deleted.2 })

/-- Model of `ConversationManagerService.build_context_from_conversation`:
reads the last message and, when it is a user message, adds location and
property-type signals to the context. -/
def build_context_from_conversation (conversation : Conversation) :
    SessionContext :=
  let context := conversation.context
  match conversation.messages.getLast? with
  | none => context
  | some last_message =>
      if last_message.role == "user" then
        let content := lowerString last_message.content
        let context :=
          if ["crescent city", "california", "ca"].any (strContains content) then
            { context with current_location := some "Crescent City, CA" }
          else context
        if ["casa", "house", "home"].any (strContains content) then
          { context with user_preferences :=
              { context.user_preferences with property_type := some "house" } }
        else if ["apartamento", "apartment", "condo"].any (strContains content) then
          { context with user_preferences :=
              { context.user_preferences with property_type := some "apartment" } }
        else context
      else context

/-- Light reference stored for each of the first three found properties. -/
def prop_ref (p : Property) : PropRef :=
  { zpid := p.zpid, address := p.address, price := p.price, city := p.city }

/-- Model of `ConversationManagerService.update_conversation_context`; the
`filters.get` calls raise when the intent carries a non-dict `filters`
value, hence the `Except` result. -/
def update_conversation_context_body (conversation : Conversation)
    (search_intent : SearchIntent) (properties_found : List Property) :
    Except String Conversation := do
  let context := conversation.context
  let context := { context with last_search_intent := some search_intent }
  let context :=
    if properties_found.isEmpty then context
    else { context with
             last_properties := (properties_found.take 3).map prop_ref }
  let filters ← getFilters search_intent
  let prefs := context.user_preferences
  let prefs :=
    if optTruthy filters.city then { prefs with preferred_city := filters.city }
    else prefs
  let prefs :=
    if intTruthy filters.min_bedrooms then
      { prefs with min_bedrooms := filters.min_bedrooms }
    else prefs
  let prefs :=
    if intTruthy filters.max_price then
      { prefs with max_price := filters.max_price }
    else prefs
  Except.ok { conversation with context := { context with user_preferences := prefs } }

/-! ### Response generator (`response_generator_service.py`) -/

/-- Oracle for the OpenAI completion service. Prompt serialization (the
textual context blocks built by the source) is abstracted: each oracle
receives the raw data the source serializes, so every behaviour of the real
service is representable. -/
structure OpenAIOracle where
  extract : String → Ctx → OpenAIExtraction
  generate_chat_summary : String → SessionContext → Except String String
  generate_property_response :
    String → Option Conversation → List Property → List POI → SearchIntent →
    Except String String
  generate_conversational_response :
    String → Option Conversation → Except String String

/-- Python numeric interpolation, thousands separators omitted. -/
def format_opt_int : Option Int → String
  | some n => toString n
  | none => "None"

/-- Model of `ResponseGeneratorService._get_fallback_response`: a
deterministic per-intent-type sentence parameterized by the result counts. -/
def get_fallback_response (properties : List Property) (pois : List POI)
    (search_intent : SearchIntent) : String :=
  let intent_type := search_intent.type.getD "property_search"
  if intent_type == "property_search" then
    if !properties.isEmpty then
      "I found " ++ toString properties.length ++
        " properties that match your search. Would you like to see more details about any particular one?"
    else
      "I didn't find any properties that match your search. Could you be more specific about what you're looking for?"
  else if intent_type == "property_detail" then
    match properties.head? with
    | some prop =>
        "Here's information about " ++ prop.address ++ " in " ++ prop.city ++
          ". Price: $" ++ format_opt_int prop.price ++ "."
    | none =>
        "I couldn't find detailed information about that property. Could you provide the property ID?"
  else if intent_type == "poi_search" then
    if !pois.isEmpty then
      "I found " ++ toString pois.length ++
        " points of interest near the property. Would you like to see more details?"
    else
      "I didn't find any points of interest near that location. Could you specify a larger radius?"
  else if intent_type == "property_compare" then
    if !properties.isEmpty then
      "I compared " ++ toString properties.length ++
        " properties. Would you like to see a detailed comparison table?"
    else
      "I couldn't find the properties to compare. Could you provide the property IDs?"
  else
    "I understand your query, but I need more information to help you better."

/-- Model of `ResponseGeneratorService._get_fallback_conversational_response`:
keyword-matched canned replies. -/
def get_fallback_conversational_response (message : String) : String :=
  let ml := trimString (lowerString message)
  if ["hello", "hi", "hey", "hola", "good morning", "good afternoon",
      "good evening", "buenos días", "buenas tardes"].any (strContains ml) then
    "Hello! Welcome to Plotari. I'm here to help you find your perfect property. What are you looking for today?"
  else if ["what can you", "how can you help", "what do you do", "help me",
           "qué puedes", "cómo puedes ayudar"].any (strContains ml) then
    "I can help you find properties! Just tell me what you're looking for - like location, number of bedrooms, price range, or any specific features. I can also show you nearby restaurants, schools, parks, and compare different properties. What interests you?"
  else if ["thank", "thanks", "gracias", "appreciate"].any (strContains ml) then
    "You're welcome! If you need help finding properties or have any questions, I'm here to assist. Just let me know!"
  else if ["bye", "goodbye", "see you", "adiós", "hasta luego"].any (strContains ml) then
    "Goodbye! Feel free to come back anytime you need help finding properties. Have a great day!"
  else if ["how are you", "cómo estás"].any (strContains ml) then
    "I'm doing great, thank you! Ready to help you find the perfect property. What are you looking for?"
  else
    "I'm here to help you find properties! You can ask me about houses, condos, or apartments in specific locations, or tell me your preferences like price range, number of bedrooms, etc. What would you like to know?"

/-- Model of `ResponseGeneratorService._generate_conversational_response`:
LLM reply with the canned table as the catch handler. -/
def generate_conversational_response (oa : OpenAIOracle) (message : String)
    (conversation : Option Conversation) : String :=
  match oa.generate_conversational_response message conversation with
  | Except.ok r => r
  | Except.error _ => get_fallback_conversational_response message

/-- Model of `ResponseGeneratorService.generate_response`. -/
def generate_response (openai : Option OpenAIOracle) (message : String)
    (properties : List Property) (pois : List POI)
    (search_intent : SearchIntent) (conversation : Option Conversation) :
    String :=
  if search_intent.type == some "general_conversation" then
    match openai with
    | some oa => generate_conversational_response oa message conversation
    | none => get_fallback_conversational_response message
  else
    match openai with
    | some oa =>
        match oa.generate_property_response message conversation properties
                pois search_intent with
        | Except.ok r => r
        | Except.error _ => get_fallback_response properties pois search_intent
    | none => get_fallback_response properties pois search_intent

/-! ### Orchestrator (`chatbot_service.py`) -/

/-- Chat turn input. -/
structure ChatRequest where
  message : String
  user_id : String
  session_id : Option String := none
  context : Option Ctx := none
deriving DecidableEq, Repr, Inhabited

/-- The `metadata` dict of a successful chat response. -/
structure ChatMeta where
  search_intent : SearchIntent
  total_properties_found : Nat
  total_pois_found : Nat
  user_id : String
  session_id : Option String
  conversation_length : Nat
deriving DecidableEq, Repr, Inhabited

/-- Chat turn output; `error` models the `{"error": ...}` metadata of
`_create_error_response`. -/
structure ChatResponse where
  message : String
  properties_found : Option (List Property) := none
  pois_found : Option (List POI) := none
  metadata : Option ChatMeta := none
  error : Option String := none
deriving DecidableEq, Repr, Inhabited

/-- Model of `ChatbotService._create_error_response`. -/
def create_error_response (message : String) (error : Option String) :
    ChatResponse :=
  { message := message, error := error }

/-- External collaborators and clock of one request. `mem_expired` and
`row_expired` are the timestamp comparisons of the maintenance pass,
abstracted as predicates because they depend on the wall clock. -/
structure Oracles where
  openai : Option OpenAIOracle := none
  weaviate : Option Weaviate := none
  now : String := ""
  mem_expired : Option String → Bool := fun _ => false
  row_expired : SupabaseRow → Bool := fun _ => false

/-- Python interpolation of the optional session id into the cache key. -/
def session_id_str : Option String → String
  | some s => s
  | none => "None"

/-- The extractor receives the conversation's context dict, which never
carries the `propertyId` / `city` keys it reads via `dict.get`, so both
lookups yield `None`. -/
def extractor_ctx (_context : SessionContext) : Ctx := {}

/-- The user message appended at the start of a turn. -/
def user_message (content now : String) : ChatMessage :=
  { role := "user", content := content, timestamp := now }

/-- Model of `ChatbotService.cleanup_old_conversations` (via
`CacheManagerService`): deactivate expired durable rows, evict stale
volatile entries. -/
def cleanup_old_conversations (o : Oracles) (st : Store) : Store :=
  { st with
      rows := st.rows.map (fun r =>
        if o.row_expired r && r.is_active then { r with is_active := false }
        else r),
      mem := st.mem.filter (fun e => !(o.mem_expired e.2.last_activity)) }

/-- Core of one processed turn (lines 82-196 of `chatbot_service.py`): append
the user message, classify, dispatch, compose, append the assistant message
and merge the context. The search-log insert is elided: it is wrapped in its
own try/except and does not touch the session. Returns the mutated
conversation, the optional chat summary and the response. -/
def process_turn_body (o : Oracles) (req : ChatRequest)
    (conversation : Conversation) :
    Except String (Conversation × Option String × ChatResponse) :=
  let conversation := { conversation with
    messages := conversation.messages ++ [user_message req.message o.now] }
  let chat_summary : Option String :=
    if conversation.messages.length == 1 then
      match o.openai with
      | some oa => (oa.generate_chat_summary req.message conversation.context).toOption
      | none => none
    else none
  let context := build_context_from_conversation conversation
  let conversation := { conversation with context := context }
  let search_intent := extract_search_intent
    (o.openai.map (fun oa => oa.extract req.message (extractor_ctx context)))
    req.message (extractor_ctx context)
  let (properties_found, pois_found) :=
    if search_intent.type == some "property_search" then
      (search_properties o.weaviate search_intent, ([] : List POI))
    else if search_intent.type == some "property_detail" then
      (match get_property_detail o.weaviate search_intent with
       | some d => [d.property]
       | none => [], [])
    else if search_intent.type == some "poi_search" then
      ([], search_pois o.weaviate search_intent)
    else if search_intent.type == some "property_compare" then
      (compare_properties o.weaviate search_intent, [])
    else ([], [])
  let response_text := generate_response o.openai req.message properties_found
    pois_found search_intent (some conversation)
  let assistant : ChatMessage :=
    { role := "assistant", content := response_text, timestamp := o.now,
      search_intent := some search_intent,
      properties_found := some properties_found.length,
      pois_found := some pois_found.length,
      properties := if properties_found.isEmpty then none
                    else some properties_found,
      pois := if pois_found.isEmpty then none else some pois_found }
  let conversation := { conversation with
    messages := conversation.messages ++ [assistant] }
  match update_conversation_context_body conversation search_intent
      properties_found with
  | Except.error e => Except.error e
  | Except.ok conversation =>
      Except.ok (conversation, chat_summary,
        { message := response_text,
          properties_found := if properties_found.isEmpty then none
                              else some (properties_found.take 5),
          pois_found := if pois_found.isEmpty then none
                        else some (pois_found.take 5),
          metadata := some
            { search_intent := search_intent,
              total_properties_found := properties_found.length,
              total_pois_found := pois_found.length,
              user_id := req.user_id, session_id := req.session_id,
              conversation_length := conversation.messages.length } })

/-- Write-back of the in-place dict mutation: the volatile cache entry
aliases the conversation object being mutated, so the final conversation
value replaces the entry when the key is still cached. -/
def write_back_alias (key : String) (conversation : Conversation)
    (mem : MemCache) : MemCache :=
  if (mem.lookup key).isSome then dictInsert key conversation mem else mem

/-- Model of `ChatbotService.process_message`: blank-message short-circuit,
session load-or-create, the turn core, write-through persistence (the
redundant `save_conversation_to_cache` update followed by the
create-or-update block) and the maintenance pass. -/
def process_message (o : Oracles) (st : Store) (req : ChatRequest) :
    ChatResponse × Store :=
  if trimString req.message == "" then
    (create_error_response "Please provide a valid message." none, st)
  else
    let sid := session_id_str req.session_id
    let key := cache_key req.user_id sid
    let (conv?, st1) := get_conversation st req.user_id sid o.now
    let (conversation, st2) :=
      match conv? with
      | some c => (c, st1)
      | none => get_or_create_conversation st1 req.user_id sid o.now
    match process_turn_body o req conversation with
    | Except.error e =>
        (create_error_response
          "Sorry, an error occurred while processing your query. Please try again."
          (some e), st2)
    | Except.ok (conversation, chat_summary, response) =>
        let st3 := { st2 with mem := write_back_alias key conversation st2.mem }
        let st4 := { st3 with
          rows := (supabase_update_conversation st3.rows req.user_id sid
                    conversation none).2 }
        let (conversation, st5) :=
          match conversation.id with
          | none =>
              let (rid, rows', next') := supabase_create_conversation st4.rows
                st4.next_id req.user_id sid conversation chat_summary
              ({ conversation with id := some rid },
               { st4 with rows := rows', next_id := next' })
          | some _ =>
              (conversation,
               { st4 with rows := (supabase_update_conversation st4.rows
                   req.user_id sid conversation chat_summary).2 })
        let st6 := { st5 with mem := write_back_alias key conversation st5.mem }
        let st7 := cleanup_old_conversations o st6
        (response, st7)

/-! ## Lemmas about the near-POIs deduplication loop -/

theorem dedupTake_mem (limit : Nat) (l : List Property) (seen : List String) :
    ∀ p ∈ dedupTake limit l seen,
      seen.contains p.zpid = false ∧
      l.find? (fun q => q.zpid == p.zpid) = some p := by
  induction l generalizing limit seen with
  | nil => intro p hp; simp [dedupTake] at hp
  | cons a rest ih =>
      intro p hp
      unfold dedupTake at hp
      by_cases hs : seen.contains a.zpid
      · rw [if_pos hs] at hp
        obtain ⟨hns, hfind⟩ := ih limit seen p hp
        have hne : (a.zpid == p.zpid) = false := by
          rcases hbe : a.zpid == p.zpid with _ | _
          · rfl
          · exact absurd hs (by rw [eq_of_beq hbe, hns]; exact Bool.false_ne_true)
        refine ⟨hns, ?_⟩
        rw [List.find?_cons_of_neg _ (by simpa using hne), hfind]
      · rw [if_neg hs] at hp
        by_cases h1 : limit ≤ 1
        · rw [if_pos h1] at hp
          have hpa : p = a := by simpa using hp
          subst hpa
          refine ⟨by simpa using hs, ?_⟩
          rw [List.find?_cons_of_pos _ (by simp)]
        · rw [if_neg h1] at hp
          rcases List.mem_cons.mp hp with hpa | hmem
          · subst hpa
            refine ⟨by simpa using hs, ?_⟩
            rw [List.find?_cons_of_pos _ (by simp)]
          · obtain ⟨hns, hfind⟩ := ih (limit - 1) (a.zpid :: seen) p hmem
            have hcons := hns
            rw [List.contains_cons] at hcons
            have hne : (p.zpid == a.zpid) = false := by
              rcases hbe : p.zpid == a.zpid with _ | _
              · rfl
              · rw [hbe] at hcons; simp at hcons
            have hseen : seen.contains p.zpid = false := by
              rw [hne] at hcons; simpa using hcons
            refine ⟨hseen, ?_⟩
            have hne' : (a.zpid == p.zpid) = false := by
              rcases hbe : a.zpid == p.zpid with _ | _
              · rfl
              · rw [eq_of_beq hbe] at hne; simp at hne
            rw [List.find?_cons_of_neg _ (by simpa using hne'), hfind]

theorem dedupTake_zpid_nodup (limit : Nat) (l : List Property) (seen : List String) :
    ((dedupTake limit l seen).map Property.zpid).Nodup := by
  induction l generalizing limit seen with
  | nil => simp [dedupTake]
  | cons a rest ih =>
      unfold dedupTake
      by_cases hs : seen.contains a.zpid
      · rw [if_pos hs]; exact ih limit seen
      · rw [if_neg hs]
        by_cases h1 : limit ≤ 1
        · rw [if_pos h1]; simp
        · rw [if_neg h1]
          simp only [List.map_cons, List.nodup_cons]
          refine ⟨?_, ih (limit - 1) (a.zpid :: seen)⟩
          intro hmem
          obtain ⟨p, hp, hz⟩ := List.mem_map.mp hmem
          have hns := (dedupTake_mem (limit - 1) rest (a.zpid :: seen) p hp).1
          rw [List.contains_cons, hz] at hns
          simp at hns

theorem dedupTake_length (limit : Nat) (l : List Property) (seen : List String)
    (hlim : 1 ≤ limit) : (dedupTake limit l seen).length ≤ limit := by
  induction l generalizing limit seen with
  | nil => simp [dedupTake]
  | cons a rest ih =>
      unfold dedupTake
      by_cases hs : seen.contains a.zpid
      · rw [if_pos hs]; exact ih limit seen hlim
      · rw [if_neg hs]
        by_cases h1 : limit ≤ 1
        · rw [if_pos h1]; simpa using hlim
        · rw [if_neg h1]
          simp only [List.length_cons]
          have hrec := ih (limit - 1) (a.zpid :: seen) (by omega)
          omega

theorem except_bind_ok {α β : Type} (a : α) (f : α → Except String β) :
    (Except.ok a >>= f) = f a := rfl

theorem except_bind_error {α β : Type} (e : String) (f : α → Except String β) :
    ((Except.error e : Except String α) >>= f) = Except.error e := rfl

/-- The catching wrapper of the near-POIs search agrees with the projection
`near_pois_accumulated`: when the successful path is taken the result is the
deduplication of the accumulated list, otherwise the branch yields `[]`. -/
theorem near_pois_eq (weaviate : Option Weaviate) (intent : SearchIntent) :
    search_properties_near_pois weaviate intent =
      match near_pois_accumulated weaviate intent with
      | some all => dedupTake 10 all []
      | none => [] := by
  unfold search_properties_near_pois search_properties_near_pois_body
    near_pois_accumulated
  cases hf : getFilters intent with
  | error e => simp [catchWith, except_bind_error, hf]
  | ok filters =>
      simp only [hf, except_bind_ok]
      cases weaviate with
      | none => simp [catchWith]
      | some w =>
          cases hp : w.get_pois_by_category filters.poi_category with
          | error e => simp [catchWith, except_bind_error, hp]
          | ok pois =>
              simp only [hp, except_bind_ok]
              cases pois with
              | nil => simp [catchWith]
              | cons p ps =>
                  cases hq : intent.query with
                  | none => simp [catchWith, hq]
                  | some q =>
                      cases ha : accumulate_near_pois w q
                          (filters.poi_radius.getD 2000) (p :: ps) with
                      | error e =>
                          simp [catchWith, except_bind_error, Except.toOption,
                            hq, ha]
                      | ok all =>
                          simp [catchWith, except_bind_ok, Except.toOption,
                            hq, ha]

/-! ## C1: near-POIs dispatch deduplication -/

/-- C1: for every near-POIs dispatch (a `property_search` intent with
`search_mode = near_pois`), the dispatcher's result list has pairwise
distinct `zpid`s, length at most 10, and each kept property is the first
property with its `zpid` in the accumulated per-POI results. -/
theorem near_pois_dispatch_dedup (weaviate : Option Weaviate)
    (intent : SearchIntent) (h : intent.search_mode = some "near_pois") :
    ((search_properties weaviate intent).map Property.zpid).Nodup ∧
    (search_properties weaviate intent).length ≤ 10 ∧
    (∀ all, near_pois_accumulated weaviate intent = some all →
      ∀ p ∈ search_properties weaviate intent,
        all.find? (fun q => q.zpid == p.zpid) = some p) := by
  have hmain : search_properties weaviate intent = [] ∨
      search_properties weaviate intent =
        search_properties_near_pois weaviate intent := by
    unfold search_properties search_properties_body
    by_cases hq : optTruthy intent.query
    · by_cases hw : weaviate.isNone
      · left; simp [catchWith, hq, hw]
      · right; simp [catchWith, hq, hw, h]
    · left; simp [catchWith, hq]
  rcases hmain with hres | hres
  · refine ⟨by simp [hres], by simp [hres], ?_⟩
    intro all _ p hp
    rw [hres] at hp
    simp at hp
  · rw [hres, near_pois_eq]
    cases hacc : near_pois_accumulated weaviate intent with
    | none =>
        refine ⟨by simp, by simp, ?_⟩
        intro all hall
        exact Option.noConfusion hall
    | some all0 =>
        refine ⟨dedupTake_zpid_nodup 10 all0 [],
          dedupTake_length 10 all0 [] (by omega), ?_⟩
        intro all hall p hp
        cases Option.some.inj hall
        exact (dedupTake_mem 10 all0 [] p hp).2

def near_geoA : Geo := { latitude := 1, longitude := 2 }

def near_geoB : Geo := { latitude := 3, longitude := 4 }

def near_poiA : POI :=
  { name := "Lincoln School", category := "school", geo := near_geoA }

def near_poiB : POI :=
  { name := "Central School", category := "school", geo := near_geoB }

def prop1 : Property :=
  { zpid := "11111111", address := "1 Oak St", city := "Crescent City",
    geo := near_geoA }

def prop2 : Property :=
  { zpid := "22222222", address := "2 Elm St", city := "Crescent City",
    geo := near_geoA }

/-- Same `zpid` as `prop2` with a different payload: the duplicate returned
by the second per-POI search. -/
def prop2b : Property :=
  { zpid := "22222222", address := "2 Elm St (duplicate)",
    city := "Crescent City", geo := near_geoB }

def prop3 : Property :=
  { zpid := "33333333", address := "3 Pine St", city := "Crescent City",
    geo := near_geoB }

/-- Demo backend: two school POIs whose geo-radius searches overlap on
`zpid = 22222222`. -/
def near_demo_weaviate : Weaviate :=
  { search_properties := fun req =>
      if req.latitude == some 1 then Except.ok { properties := [prop1, prop2] }
      else Except.ok { properties := [prop2b, prop3] },
    get_pois_by_category := fun _ => Except.ok [near_poiA, near_poiB],
    get_property_detail := fun _ => Except.ok none,
    search_pois := fun _ => Except.ok { pois := [] },
    compare_properties := fun _ => Except.ok { properties := [] } }

def near_demo_intent : SearchIntent :=
  { type := some "property_search", query := some "home near school",
    filters := some (some { poi_category := some "school",
                            poi_radius := some 1500 }),
    search_mode := some "near_pois" }

/-- Witness for C1 at a concrete backend whose two per-POI searches overlap:
the duplicate is dropped, the first-seen property is retained. -/
theorem near_pois_dispatch_dedup_witness :
    ((search_properties (some near_demo_weaviate) near_demo_intent).map
        Property.zpid).Nodup ∧
    (search_properties (some near_demo_weaviate) near_demo_intent).length ≤ 10 ∧
    search_properties (some near_demo_weaviate) near_demo_intent =
      [prop1, prop2, prop3] :=
  ⟨(near_pois_dispatch_dedup (some near_demo_weaviate) near_demo_intent rfl).1,
   (near_pois_dispatch_dedup (some near_demo_weaviate) near_demo_intent rfl).2.1,
   by decide⟩

/-! ## C7: backend exceptions are caught per branch -/

/-- Backend whose every operation raises. -/
def boomWeaviate : Weaviate :=
  { search_properties := fun _ => Except.error "boom",
    get_pois_by_category := fun _ => Except.error "boom",
    get_property_detail := fun _ => Except.error "boom",
    search_pois := fun _ => Except.error "boom",
    compare_properties := fun _ => Except.error "boom" }

/-- C7: in every dispatch branch (plain property search, near-POIs search,
detail, POI search, compare), a raised backend exception is caught locally
and converted into the empty result of that branch instead of propagating. -/
theorem dispatcher_catches_backend_errors :
    (∀ (w : Option Weaviate) (intent : SearchIntent) (e : String),
        search_properties_body w intent = Except.error e →
        search_properties w intent = []) ∧
    (∀ (w : Option Weaviate) (intent : SearchIntent) (e : String),
        search_properties_near_pois_body w intent = Except.error e →
        search_properties_near_pois w intent = []) ∧
    (∀ (w : Option Weaviate) (intent : SearchIntent) (e : String),
        get_property_detail_body w intent = Except.error e →
        get_property_detail w intent = none) ∧
    (∀ (w : Option Weaviate) (intent : SearchIntent) (e : String),
        search_pois_body w intent = Except.error e →
        search_pois w intent = []) ∧
    (∀ (w : Option Weaviate) (intent : SearchIntent) (e : String),
        compare_properties_body w intent = Except.error e →
        compare_properties w intent = []) := by
  refine ⟨?_, ?_, ?_, ?_, ?_⟩ <;>
    · intro w intent e h
      simp [search_properties, search_properties_near_pois,
        get_property_detail, search_pois, compare_properties, catchWith, h]

/-- Witness for C7: against an all-raising backend every branch degrades to
its empty result. -/
theorem dispatcher_catches_backend_errors_witness :
    search_properties (some boomWeaviate) { query := some "x" } = [] ∧
    search_properties_near_pois (some boomWeaviate)
      { query := some "x", filters := some (some {}) } = [] ∧
    get_property_detail (some boomWeaviate)
      { property_id := some "18562768" } = none ∧
    search_pois (some boomWeaviate) { property_id := some "18562768" } = [] ∧
    compare_properties (some boomWeaviate)
      { property_ids := ["11111111", "22222222"] } = [] :=
  ⟨dispatcher_catches_backend_errors.1 _ _ "boom" rfl,
   dispatcher_catches_backend_errors.2.1 _ _ "boom" rfl,
   dispatcher_catches_backend_errors.2.2.1 _ _ "boom" rfl,
   dispatcher_catches_backend_errors.2.2.2.1 _ _ "boom" rfl,
   dispatcher_catches_backend_errors.2.2.2.2 _ _ "boom" rfl⟩

/-! ## C10: falsy query short-circuits the plain property search -/

/-- C10: a plain `property_search` dispatch whose `query` is missing, empty
or otherwise falsy yields the empty list, and its branch body already
succeeds with `[]` for every backend — in particular for the all-raising
one, which certifies that no backend call is issued before the guard. -/
theorem plain_search_falsy_query_returns_empty (weaviate : Option Weaviate)
    (intent : SearchIntent) (h : optTruthy intent.query = false) :
    search_properties_body weaviate intent = Except.ok [] ∧
    search_properties weaviate intent = [] := by
  constructor
  · unfold search_properties_body
    simp [h]
  · unfold search_properties search_properties_body
    simp [h, catchWith]

/-- Witness for C10: missing query and empty-string query both short-circuit
against the all-raising backend. -/
theorem plain_search_falsy_query_returns_empty_witness :
    search_properties_body (some boomWeaviate)
      { query := some "" } = Except.ok [] ∧
    search_properties (some boomWeaviate) { query := some "" } = [] ∧
    search_properties (some boomWeaviate) {} = [] :=
  ⟨(plain_search_falsy_query_returns_empty (some boomWeaviate)
      { query := some "" } rfl).1,
   (plain_search_falsy_query_returns_empty (some boomWeaviate)
      { query := some "" } rfl).2,
   (plain_search_falsy_query_returns_empty (some boomWeaviate) {} rfl).2⟩

/-! ## C6: compare dispatch requirements -/

/-- Counterexample to C6: the rule-based classifier does not reject duplicate
ids — a message repeating one id yields `property_ids` with a duplicate, so
the list handed to the dispatcher can contain duplicates. -/
theorem compare_duplicates_counterexample :
    (extract_search_intent none "compare 11111111 and 11111111" {}).type
      = some "property_compare" ∧
    (extract_search_intent none "compare 11111111 and 11111111" {}).property_ids
      = ["11111111", "11111111"] ∧
    ¬ (extract_search_intent none
        "compare 11111111 and 11111111" {}).property_ids.Nodup := by
  refine ⟨by decide, by decide, by decide⟩

/-- C6 amended: with fewer than 2 ids the compare dispatch returns the empty
result with no backend call (the body already succeeds with `[]` for every
backend); the classifier caps ids at 5 but does not deduplicate them —
instead, a duplicated list is rejected by the compare-request validator
inside the dispatcher, which degrades to the empty result. -/
theorem compare_dispatch_amended (weaviate : Option Weaviate)
    (intent : SearchIntent) :
    (intent.property_ids.length < 2 →
      compare_properties_body weaviate intent = Except.ok [] ∧
      compare_properties weaviate intent = []) ∧
    (¬ intent.property_ids.Nodup → compare_properties weaviate intent = []) ∧
    (∀ message context,
      (extract_compare_intent message context).property_ids.length ≤ 5) := by
  refine ⟨?_, ?_, ?_⟩
  · intro h
    constructor
    · unfold compare_properties_body
      simp [h]
    · unfold compare_properties compare_properties_body
      simp [h, catchWith]
  · intro h
    unfold compare_properties compare_properties_body
    by_cases hlen : intent.property_ids.length < 2
    · simp [hlen, catchWith]
    · cases weaviate with
      | none => simp [catchWith]
      | some w =>
          simp only [hlen, Option.isNone_none, Bool.or_false, if_false]
          unfold mkPropertyCompareRequest
          by_cases h5 : 5 < intent.property_ids.length
          · simp [hlen, h5, catchWith, except_bind_error]
          · simp [hlen, h5, h, catchWith, except_bind_error]
  · intro message context
    unfold extract_compare_intent
    cases context.propertyId with
    | none => simp [List.length_take]
    | some pid =>
        by_cases hp : (!(pid == "")) && !((digitTokens 8 message).contains pid)
        · simp [hp, List.length_take]
        · simp [hp, List.length_take]

/-- Witness for C6: a single id short-circuits; a duplicated pair degrades to
the empty result. -/
theorem compare_dispatch_amended_witness :
    compare_properties (some boomWeaviate)
      { property_ids := ["11111111"] } = [] ∧
    compare_properties (some boomWeaviate)
      { property_ids := ["11111111", "11111111"] } = [] :=
  ⟨((compare_dispatch_amended (some boomWeaviate)
      { property_ids := ["11111111"] }).1 (by decide)).2,
   (compare_dispatch_amended (some boomWeaviate)
      { property_ids := ["11111111", "11111111"] }).2.1 (by decide)⟩

/-! ## C4: volatile-cache eviction -/

theorem oldest_session_spec (cache : MemCache) :
    ∀ e, oldest_session cache = some e →
      e ∈ cache ∧
      ∀ x ∈ cache, last_activity_key e.2 ≤ last_activity_key x.2 := by
  induction cache with
  | nil => intro e h; exact Option.noConfusion h
  | cons a rest ih =>
      intro e h
      unfold oldest_session at h
      cases rest with
      | nil =>
          cases Option.some.inj h
          refine ⟨List.mem_singleton.mpr rfl, ?_⟩
          intro x hx
          rw [List.mem_singleton] at hx
          subst hx
          exact le_refl _
      | cons b bs =>
          cases hr : oldest_session (b :: bs) with
          | none =>
              exfalso
              unfold oldest_session at hr
              cases bs with
              | nil => exact Option.noConfusion hr
              | cons c cs =>
                  cases hc : oldest_session (c :: cs) with
                  | none => rw [hc] at hr; exact Option.noConfusion hr
                  | some v => rw [hc] at hr; exact Option.noConfusion hr
          | some m =>
              rw [hr] at h
              obtain ⟨hmmem, hmmin⟩ := ih m hr
              have h2 : (if last_activity_key m.2 < last_activity_key a.2
                  then m else a) = e := Option.some.inj h
              by_cases hlt : last_activity_key m.2 < last_activity_key a.2
              · rw [if_pos hlt] at h2
                subst h2
                refine ⟨List.mem_cons_of_mem a hmmem, ?_⟩
                intro x hx
                rcases List.mem_cons.mp hx with rfl | hx'
                · exact le_of_lt hlt
                · exact hmmin x hx'
              · rw [if_neg hlt] at h2
                subst h2
                refine ⟨List.mem_cons_self a _, ?_⟩
                intro x hx
                rcases List.mem_cons.mp hx with rfl | hx'
                · exact le_refl _
                · exact le_trans (not_lt.mp hlt) (hmmin x hx')

theorem dictInsert_length_le (k : String) (v : Conversation)
    (cache : MemCache) : (dictInsert k v cache).length ≤ cache.length + 1 := by
  induction cache with
  | nil => simp [dictInsert]
  | cons a rest ih =>
      unfold dictInsert
      by_cases hk : (a.1 == k) = true
      · simp [hk]
      · rw [if_neg hk]
        simp only [List.length_cons]
        omega

theorem dictDelete_length_lt (k : String) (cache : MemCache)
    (h : ∃ e ∈ cache, e.1 = k) :
    (dictDelete k cache).length + 1 ≤ cache.length := by
  induction cache with
  | nil => obtain ⟨e, he, _⟩ := h; exact absurd he (List.not_mem_nil e)
  | cons a rest ih =>
      obtain ⟨e, he, hek⟩ := h
      unfold dictDelete
      rcases List.mem_cons.mp he with rfl | hmem
      · rw [List.filter_cons]
        have : (!(e.1 == k)) = false := by simp [hek]
        rw [this]
        simp only [Bool.false_eq_true, if_false, List.length_cons]
        have := List.length_filter_le (fun x => !(x.1 == k)) rest
        omega
      · rw [List.filter_cons]
        by_cases hk : (!(a.1 == k)) = true
        · rw [hk]
          simp only [if_true, List.length_cons]
          have := ih ⟨e, hmem, hek⟩
          unfold dictDelete at this
          omega
        · simp only [hk, Bool.false_eq_true, if_false, List.length_cons]
          have := List.length_filter_le (fun x => !(x.1 == k)) rest
          omega

/-- C4: an insert into a full volatile cache evicts an entry whose
`last_activity` stamp is least (no more-recently-touched entry is evicted,
the scan keeping the first minimum in insertion order), and every insert
leaves the cache within its configured capacity. -/
theorem cache_insert_evicts_oldest (cache_max_size : Nat) (cache : MemCache)
    (session_id : String) (conversation : Conversation)
    (hcap : 1 ≤ cache_max_size) (hsize : cache.length ≤ cache_max_size) :
    (add_to_memory_cache cache_max_size cache session_id conversation).length
      ≤ cache_max_size ∧
    (cache_max_size ≤ cache.length →
      ∃ oldest, oldest_session cache = some oldest ∧
        oldest ∈ cache ∧
        (∀ e ∈ cache, last_activity_key oldest.2 ≤ last_activity_key e.2) ∧
        add_to_memory_cache cache_max_size cache session_id conversation =
          dictInsert session_id conversation (dictDelete oldest.1 cache)) := by
  by_cases hfull : cache_max_size ≤ cache.length
  · cases cache with
    | nil => simp at hfull; omega
    | cons a rest =>
        cases ho : oldest_session (a :: rest) with
        | none =>
            exfalso
            unfold oldest_session at ho
            cases rest with
            | nil => exact Option.noConfusion ho
            | cons b bs =>
                cases hb : oldest_session (b :: bs) with
                | none => rw [hb] at ho; exact Option.noConfusion ho
                | some v => rw [hb] at ho; exact Option.noConfusion ho
        | some oldest =>
            obtain ⟨hmem, hmin⟩ := oldest_session_spec (a :: rest) oldest ho
            have heq : add_to_memory_cache cache_max_size (a :: rest)
                session_id conversation =
                dictInsert session_id conversation
                  (dictDelete oldest.1 (a :: rest)) := by
              unfold add_to_memory_cache
              rw [if_pos hfull, ho]
            refine ⟨?_, fun _ => ⟨oldest, rfl, hmem, hmin, heq⟩⟩
            rw [heq]
            have h1 := dictInsert_length_le session_id conversation
              (dictDelete oldest.1 (a :: rest))
            have h2 := dictDelete_length_lt oldest.1 (a :: rest)
              ⟨oldest, hmem, rfl⟩
            omega
  · constructor
    · unfold add_to_memory_cache
      rw [if_neg hfull]
      show (dictInsert session_id conversation cache).length ≤ cache_max_size
      have := dictInsert_length_le session_id conversation cache
      omega
    · intro hc; exact absurd hc hfull

def cacheConvA : Conversation :=
  { user_id := "u", session_id := "a", created_at := "t0",
    last_activity := some "2024-01-02T00:00:00" }

def cacheConvB : Conversation :=
  { user_id := "u", session_id := "b", created_at := "t0",
    last_activity := some "2024-01-01T00:00:00" }

def cacheConvC : Conversation :=
  { user_id := "u", session_id := "c", created_at := "t0",
    last_activity := some "2024-01-03T00:00:00" }

/-- Witness for C4: at capacity 2, inserting a third session evicts exactly
the entry with the oldest stamp (`u:b`), not the fresher `u:a`. -/
theorem cache_insert_evicts_oldest_witness :
    (add_to_memory_cache 2 [("u:a", cacheConvA), ("u:b", cacheConvB)]
        "u:c" cacheConvC).length ≤ 2 ∧
    add_to_memory_cache 2 [("u:a", cacheConvA), ("u:b", cacheConvB)]
        "u:c" cacheConvC = [("u:a", cacheConvA), ("u:c", cacheConvC)] :=
  ⟨(cache_insert_evicts_oldest 2 [("u:a", cacheConvA), ("u:b", cacheConvB)]
      "u:c" cacheConvC (by decide) (by decide)).1,
   by
    have hlt : last_activity_key cacheConvB < last_activity_key cacheConvA :=
      String.lt_iff_toList_lt.mpr (by decide)
    simp only [add_to_memory_cache, oldest_session, dictDelete, dictInsert]
    rw [if_pos hlt]
    rfl⟩

/-! ## C9: clearing a conversation is idempotent -/

theorem dictDelete_lookup_none (k : String) (cache : MemCache) :
    (dictDelete k cache).lookup k = none := by
  induction cache with
  | nil => rfl
  | cons a rest ih =>
      unfold dictDelete at ih ⊢
      rw [List.filter_cons]
      by_cases hk : (a.1 == k) = true
      · simp only [hk, Bool.not_true, Bool.false_eq_true, if_false]
        exact ih
      · have hk' : (!(a.1 == k)) = true := by simp [hk]
        rw [hk']
        simp only [if_true, List.lookup]
        have : (k == a.1) = false := by
          rcases hke : k == a.1 with _ | _
          · rfl
          · exact absurd (by rw [eq_of_beq hke]; simp) hk
        rw [this]
        exact ih

theorem supabase_delete_clears (rows : List SupabaseRow) (u s : String) :
    (supabase_delete_conversation none rows u s).2.filter
      (fun r => r.user_id == u && r.session_id == s && r.is_active) = [] := by
  show ((rows.map (fun r =>
      if r.user_id == u && r.session_id == s && r.is_active then
        { r with is_active := false }
      else r)).filter
        (fun r => r.user_id == u && r.session_id == s && r.is_active)) = []
  induction rows with
  | nil => rfl
  | cons r rest ih =>
      simp only [List.map_cons, List.filter_cons]
      by_cases h : (r.user_id == u && r.session_id == s && r.is_active) = true
      · rw [if_pos h]
        simp only [h, if_true]
        have : ((({ r with is_active := false } : SupabaseRow).user_id == u &&
            ({ r with is_active := false } : SupabaseRow).session_id == s &&
            ({ r with is_active := false } : SupabaseRow).is_active)) = false := by
          simp
        rw [this]
        simpa using ih
      · rw [if_neg h]
        have hb : (r.user_id == u && r.session_id == s && r.is_active) = false := by
          rcases hx : (r.user_id == u && r.session_id == s && r.is_active) with _ | _
          · rfl
          · exact absurd hx h
        rw [hb]
        simpa using ih

/-- A conversation exists for `(user_id, session_id)`: it is held in the
volatile cache or stored as an active durable row. -/
def conversation_exists (st : Store) (user_id session_id : String) : Prop :=
  (st.mem.lookup (cache_key user_id session_id)).isSome = true ∨
  (supabase_get_row st.rows user_id session_id).isSome = true

theorem clear_conversation_fst_ok (st : Store) (u s : String) :
    (clear_conversation none st u s).1 =
      ((st.mem.lookup (cache_key u s)).isSome ||
        !((st.rows.filter (fun r => r.user_id == u && r.session_id == s &&
            r.is_active)).isEmpty)) := rfl

theorem clear_conversation_fst_err (e : String) (st : Store) (u s : String) :
    (clear_conversation (some e) st u s).1 =
      ((st.mem.lookup (cache_key u s)).isSome || false) := rfl

theorem clear_conversation_mem (db_error : Option String) (st : Store)
    (u s : String) :
    (clear_conversation db_error st u s).2.mem =
      if (st.mem.lookup (cache_key u s)).isSome then
        dictDelete (cache_key u s) st.mem
      else st.mem := rfl

theorem clear_conversation_rows (db_error : Option String) (st : Store)
    (u s : String) :
    (clear_conversation db_error st u s).2.rows =
      (supabase_delete_conversation db_error st.rows u s).2 := rfl

/-- C9: for an existing conversation, a first clear whose durable delete
call is not interrupted reports `true`, and the immediately following clear
reports `false` whether or not the durable tier fails on it; moreover a
raised durable client error is caught into the `False` not-found signal
with the table untouched, so neither call raises. -/
theorem clear_conversation_idempotent (st : Store) (user_id session_id : String)
    (db2 : Option String) (h : conversation_exists st user_id session_id) :
    (clear_conversation none st user_id session_id).1 = true ∧
    (clear_conversation db2 (clear_conversation none st user_id session_id).2
        user_id session_id).1 = false ∧
    (∀ e rows, supabase_delete_conversation (some e) rows user_id session_id =
      (false, rows)) := by
  refine ⟨?_, ?_, fun e rows => rfl⟩
  · rw [clear_conversation_fst_ok]
    rcases h with hmem | hrow
    · rw [hmem]; rfl
    · unfold supabase_get_row at hrow
      rw [List.find?_isSome] at hrow
      obtain ⟨r, hr, hp⟩ := hrow
      have hmemf : r ∈ st.rows.filter
          (fun r => r.user_id == user_id && r.session_id == session_id &&
            r.is_active) := List.mem_filter.mpr ⟨hr, hp⟩
      have hne : st.rows.filter
          (fun r => r.user_id == user_id && r.session_id == session_id &&
            r.is_active) ≠ [] := by
        intro hnil
        rw [hnil] at hmemf
        exact List.not_mem_nil r hmemf
      have hfalse : (st.rows.filter
          (fun r => r.user_id == user_id && r.session_id == session_id &&
            r.is_active)).isEmpty = false := by
        rcases hx : (st.rows.filter
            (fun r => r.user_id == user_id && r.session_id == session_id &&
              r.is_active)).isEmpty with _ | _
        · exact hx
        · exact absurd (List.isEmpty_iff.mp hx) hne
      rw [hfalse]
      simp
  · have h1 : ((clear_conversation none st user_id session_id).2.mem.lookup
        (cache_key user_id session_id)).isSome = false := by
      rw [clear_conversation_mem]
      by_cases hmem : (st.mem.lookup (cache_key user_id session_id)).isSome = true
      · rw [if_pos hmem, dictDelete_lookup_none]
        rfl
      · rw [if_neg hmem]
        cases hx : st.mem.lookup (cache_key user_id session_id) with
        | none => rfl
        | some v => rw [hx] at hmem; simp at hmem
    cases db2 with
    | some e =>
        rw [clear_conversation_fst_err, h1]
        rfl
    | none =>
        rw [clear_conversation_fst_ok, h1]
        have h2 : ((clear_conversation none st user_id session_id).2.rows.filter
            (fun r => r.user_id == user_id && r.session_id == session_id &&
              r.is_active)).isEmpty = true := by
          rw [clear_conversation_rows, supabase_delete_clears]
          rfl
        rw [h2]
        rfl

def c9row : SupabaseRow :=
  { id := "row-0", user_id := "u", session_id := "s",
    conversation_data := new_conversation "u" "s" "t0" }

def c9store : Store := { rows := [c9row] }

/-- Witness for C9 at a store holding one active durable row; the second
clear is exercised against a failing durable tier and still reports
`false`, and the caught-error conjunct is instantiated as well. -/
theorem clear_conversation_idempotent_witness :
    (clear_conversation none c9store "u" "s").1 = true ∧
    (clear_conversation (some "store unavailable")
        (clear_conversation none c9store "u" "s").2 "u" "s").1 = false ∧
    (∀ e rows, supabase_delete_conversation (some e) rows "u" "s" =
      (false, rows)) :=
  clear_conversation_idempotent c9store "u" "s" (some "store unavailable")
    (Or.inr (by decide))

/-! ## C2: empty-message handling -/

def c2_llm_intent : SearchIntent :=
  { type := some "general_conversation", query := some "greeting",
    filters := some (some {}) }

/-- Counterexample to C2: `extract_search_intent` performs no empty-message
check — with a completion service configured it is invoked even for the
empty message (the guard tests only that the service exists), and a valid
candidate from it is returned instead of the hard default. -/
theorem classify_empty_message_counterexample :
    extract_invokes_openai (some (Except.ok (some c2_llm_intent))) = true ∧
    extract_search_intent (some (Except.ok (some c2_llm_intent))) "" {} =
      c2_llm_intent ∧
    c2_llm_intent ≠ get_default_search_intent "" := by
  refine ⟨rfl, by decide, by decide⟩

/-- C2 amended: the blank-message short-circuit lives in the orchestrator:
for every oracle bundle (so no completion-service response can influence the
turn) `process_message` answers the fixed error response before intent
extraction and leaves the store untouched. -/
theorem blank_message_short_circuit (o : Oracles) (st : Store)
    (req : ChatRequest) (h : trimString req.message = "") :
    process_message o st req =
      (create_error_response "Please provide a valid message." none, st) := by
  unfold process_message
  rw [h]
  rfl

def c2_oracles : Oracles := { weaviate := some boomWeaviate }

/-- Witness for C2 amended: a whitespace-only message short-circuits even
with a raising backend configured. -/
theorem blank_message_short_circuit_witness :
    process_message c2_oracles {} { message := "   ", user_id := "u" } =
      (create_error_response "Please provide a valid message." none, {}) :=
  blank_message_short_circuit c2_oracles {} { message := "   ", user_id := "u" }
    (by decide)

/-! ## C3: classify output against the validation predicate -/

/-- Counterexample to C3: the rule-based fallback result is returned without
re-validation, and its `property_compare` variant carries no `filters` key,
so the returned intent fails `_validate_search_intent`. -/
theorem classify_validation_counterexample :
    (extract_search_intent none "compare 12345678 vs 23456789" {}).type =
      some "property_compare" ∧
    validate_search_intent
      (some (extract_search_intent none "compare 12345678 vs 23456789" {})) =
      false := by
  refine ⟨by decide, by decide⟩

theorem extract_compare_intent_filters (message : String) (context : Ctx) :
    (extract_compare_intent message context).filters = none := rfl

theorem extract_detail_intent_filters (message : String) (context : Ctx) :
    (extract_detail_intent message context).filters = none := rfl

theorem validate_of_parts (t q : String) (f : Filters)
    (ht : valid_types.contains t = true) (hq : ¬ trimString q = "")
    (pid : Option String) (pids : List String) (cat : Option String)
    (rad : Option Nat) (sm : Option String) :
    validate_search_intent (some
      { type := some t, query := some q, filters := some (some f),
        property_id := pid, property_ids := pids, category := cat,
        radius := rad, search_mode := sm }) = true := by
  have hq' : (trimString q == "") = false := beq_eq_false_iff_ne.mpr hq
  show (true && true && true && valid_types.contains t &&
    !(trimString q == "") && true) = true
  rw [ht, hq']
  rfl

/-- C3 amended: an intent produced by the completion-service path is
validated before being returned, but the rule-based fallback is not
re-validated. Every intent `classify` returns either passes the validation
predicate, or lacks the `filters` key (the fallback detail / POI / compare
variants), or echoes a blank message as its query (the fallback default on a
blank message, which the orchestrator never sends). -/
theorem classify_validation_amended (openai : Option OpenAIExtraction)
    (message : String) (context : Ctx) :
    validate_search_intent
      (some (extract_search_intent openai message context)) = true ∨
    (extract_search_intent openai message context).filters = none ∨
    ((extract_search_intent openai message context).query = some message ∧
      trimString message = "") := by
  have hfb : validate_search_intent
      (some (extract_search_intent_fallback message context)) = true ∨
      (extract_search_intent_fallback message context).filters = none ∨
      ((extract_search_intent_fallback message context).query = some message ∧
        trimString message = "") := by
    unfold extract_search_intent_fallback
    by_cases hgen : (is_general_conversation_message
        (trimString (lowerString message)) &&
        !has_property_terms (trimString (lowerString message))) = true
    · rw [if_pos hgen]
      by_cases hq : trimString message = ""
      · exact Or.inr (Or.inr ⟨rfl, hq⟩)
      · refine Or.inl (validate_of_parts _ _ _ ?_ hq _ _ _ _ _)
        decide
    · rw [if_neg hgen]
      by_cases hcmp : (compare_keywords.any
          (strContains (trimString (lowerString message)))) = true
      · rw [if_pos hcmp]
        exact Or.inr (Or.inl (extract_compare_intent_filters message context))
      · rw [if_neg hcmp]
        by_cases hdet : (detail_keywords.any
            (strContains (trimString (lowerString message)))) = true
        · rw [if_pos hdet]
          exact Or.inr (Or.inl (extract_detail_intent_filters message context))
        · rw [if_neg hdet]
          by_cases hpoi : (poi_keywords.any
              (strContains (trimString (lowerString message)))) = true
          · rw [if_pos hpoi]
            simp only [extract_poi_intent]
            by_cases hpid : (!(optTruthy context.propertyId)) = true
            · rw [if_pos hpid]
              by_cases h1 : (["escuela", "school", "colegio"].any
                  (strContains (lowerString message))) = true
              · rw [if_pos h1]
                refine Or.inl (validate_of_parts _ _ _ ?_ ?_ _ _ _ _ _)
                · decide
                · show ¬ trimString ("home near " ++ "school") = ""
                  decide
              · rw [if_neg h1]
                by_cases h2 : (["restaurante", "restaurant", "comida"].any
                    (strContains (lowerString message))) = true
                · rw [if_pos h2]
                  refine Or.inl (validate_of_parts _ _ _ ?_ ?_ _ _ _ _ _)
                  · decide
                  · show ¬ trimString ("home near " ++ "restaurant") = ""
                    decide
                · rw [if_neg h2]
                  by_cases h3 : (["hospital", "clínica", "médico"].any
                      (strContains (lowerString message))) = true
                  · rw [if_pos h3]
                    refine Or.inl (validate_of_parts _ _ _ ?_ ?_ _ _ _ _ _)
                    · decide
                    · show ¬ trimString ("home near " ++ "healthcare") = ""
                      decide
                  · rw [if_neg h3]
                    by_cases h4 : (["tienda", "shop", "comercio"].any
                        (strContains (lowerString message))) = true
                    · rw [if_pos h4]
                      refine Or.inl (validate_of_parts _ _ _ ?_ ?_ _ _ _ _ _)
                      · decide
                      · show ¬ trimString ("home near " ++ "shopping") = ""
                        decide
                    · rw [if_neg h4]
                      by_cases hq : trimString message = ""
                      · exact Or.inr (Or.inr ⟨rfl, hq⟩)
                      · refine Or.inl (validate_of_parts _ _ _ ?_ hq _ _ _ _ _)
                        decide
            · rw [if_neg hpid]
              exact Or.inr (Or.inl rfl)
          · rw [if_neg hpoi]
            unfold extract_basic_search_intent
            by_cases hq : trimString message = ""
            · exact Or.inr (Or.inr ⟨rfl, hq⟩)
            · refine Or.inl (validate_of_parts _ _ _ ?_ hq _ _ _ _ _)
              decide
  cases openai with
  | none => exact hfb
  | some resp =>
      cases resp with
      | error e => exact hfb
      | ok cand =>
          cases cand with
          | none => exact hfb
          | some i =>
              by_cases hv : validate_search_intent (some i) = true
              · simp only [extract_search_intent]
                rw [if_pos hv]
                exact Or.inl hv
              · simp only [extract_search_intent]
                rw [if_neg hv]
                exact hfb

/-! ## C5: rule-based compare classification -/

/-- Counterexample to C5: the general-conversation rule has priority over
the compare rule, so a message holding a comparison keyword and two 8+-digit
tokens can still classify as `general_conversation` (here via the thanks
keyword). -/
theorem compare_keyword_counterexample :
    compare_keywords.any (strContains (trimString (lowerString
      "thanks compare 12345678 23456789"))) = true ∧
    2 ≤ (digitTokens 8 "thanks compare 12345678 23456789").length ∧
    (extract_search_intent none "thanks compare 12345678 23456789" {}).type =
      some "general_conversation" := by
  refine ⟨by decide, by decide, by decide⟩

/-- C5 amended: when the message carries a comparison keyword and does not
match the higher-priority general-conversation rule, the fallback classifier
returns `property_compare`; the ids are the 8+-digit tokens in message
order, the truthy context id is prepended when not already extracted, and
the cap at 5 is applied after prepending (so the first four tokens always
survive, order preserved). -/
theorem compare_classification_amended (message : String) (context : Ctx)
    (hcmp : compare_keywords.any
      (strContains (trimString (lowerString message))) = true)
    (hgen : (is_general_conversation_message (trimString (lowerString message))
      && !has_property_terms (trimString (lowerString message))) = false) :
    (extract_search_intent_fallback message context).type =
      some "property_compare" ∧
    (extract_search_intent_fallback message context).property_ids.length ≤ 5 ∧
    List.Sublist ((digitTokens 8 message).take 4)
      (extract_search_intent_fallback message context).property_ids ∧
    (context.propertyId = none →
      (extract_search_intent_fallback message context).property_ids =
        (digitTokens 8 message).take 5) ∧
    (∀ pid, context.propertyId = some pid → pid ≠ "" →
      (digitTokens 8 message).contains pid = false →
      (extract_search_intent_fallback message context).property_ids =
        (pid :: digitTokens 8 message).take 5) := by
  have hroute : extract_search_intent_fallback message context =
      extract_compare_intent message context := by
    unfold extract_search_intent_fallback
    rw [if_neg (by rw [hgen]; exact Bool.false_ne_true), if_pos hcmp]
  rw [hroute]
  have htake45 : List.Sublist ((digitTokens 8 message).take 4)
      ((digitTokens 8 message).take 5) := by
    have h45 : (digitTokens 8 message).take 4 =
        ((digitTokens 8 message).take 5).take 4 := by
      rw [List.take_take]
      norm_num
    rw [h45]
    exact List.take_sublist 4 _
  cases hcp : context.propertyId with
  | none =>
      have hval : extract_compare_intent message context =
          { type := some "property_compare",
            property_ids := (digitTokens 8 message).take 5,
            query := some message } := by
        unfold extract_compare_intent
        rw [hcp]
      rw [hval]
      refine ⟨rfl, ?_, htake45, fun _ => rfl, ?_⟩
      · simp
      · intro pid hpid
        exact absurd hpid (by simp)
  | some pid0 =>
      by_cases htr : ((!(pid0 == "")) &&
          !((digitTokens 8 message).contains pid0)) = true
      · have hval : extract_compare_intent message context =
            { type := some "property_compare",
              property_ids := (pid0 :: digitTokens 8 message).take 5,
              query := some message } := by
          unfold extract_compare_intent
          rw [hcp]
          simp only [htr, if_true]
        rw [hval]
        refine ⟨rfl, ?_, ?_, ?_, ?_⟩
        · simp
        · show List.Sublist ((digitTokens 8 message).take 4)
            ((pid0 :: digitTokens 8 message).take 5)
          rw [List.take_succ_cons]
          exact List.sublist_cons_self pid0 ((digitTokens 8 message).take 4)
        · intro hn
          exact absurd hn (by simp)
        · intro pid hpid _ _
          cases Option.some.inj hpid
          rfl
      · have hval : extract_compare_intent message context =
            { type := some "property_compare",
              property_ids := (digitTokens 8 message).take 5,
              query := some message } := by
          unfold extract_compare_intent
          rw [hcp]
          simp only [htr, Bool.false_eq_true, if_false]
        rw [hval]
        refine ⟨rfl, ?_, htake45, ?_, ?_⟩
        · simp
        · intro hn
          exact absurd hn (by simp)
        · intro pid hpid hne hcont
          exfalso
          have hid : pid0 = pid := Option.some.inj hpid
          apply htr
          rw [hid, hcont]
          have hne' : (pid == "") = false := beq_eq_false_iff_ne.mpr hne
          rw [hne']
          rfl

/-- Witness for C5 amended at the spec's own example message. -/
theorem compare_classification_amended_witness :
    (extract_search_intent_fallback "Compare properties 18562768 and 18562769"
        {}).type = some "property_compare" ∧
    (extract_search_intent_fallback "Compare properties 18562768 and 18562769"
        {}).property_ids.length ≤ 5 ∧
    List.Sublist
      ((digitTokens 8 "Compare properties 18562768 and 18562769").take 4)
      (extract_search_intent_fallback "Compare properties 18562768 and 18562769"
        {}).property_ids ∧
    (({} : Ctx).propertyId = none →
      (extract_search_intent_fallback "Compare properties 18562768 and 18562769"
          {}).property_ids =
        (digitTokens 8 "Compare properties 18562768 and 18562769").take 5) ∧
    (∀ pid, ({} : Ctx).propertyId = some pid → pid ≠ "" →
      (digitTokens 8 "Compare properties 18562768 and 18562769").contains pid
        = false →
      (extract_search_intent_fallback "Compare properties 18562768 and 18562769"
          {}).property_ids =
        (pid :: digitTokens 8 "Compare properties 18562768 and 18562769").take 5) :=
  compare_classification_amended "Compare properties 18562768 and 18562769" {}
    (by decide) (by decide)

/-! ## C8: strict append order of the turn -/

theorem update_context_messages (conversation : Conversation)
    (intent : SearchIntent) (props : List Property) (c : Conversation)
    (h : update_conversation_context_body conversation intent props =
      Except.ok c) :
    c.messages = conversation.messages := by
  unfold update_conversation_context_body at h
  cases hf : getFilters intent with
  | error e =>
      rw [hf] at h
      simp only [except_bind_error] at h
      exact Except.noConfusion h
  | ok filters =>
      rw [hf] at h
      simp only [except_bind_ok] at h
      cases Except.ok.inj h
      rfl

theorem exists_assistant_append (A : List ChatMessage) (u a : ChatMessage)
    (h : a.role = "assistant") :
    ∃ assistant, (A ++ [u]) ++ [a] = A ++ [u, assistant] ∧
      assistant.role = "assistant" :=
  ⟨a, by rw [List.append_assoc]; rfl, h⟩

/-- C8: a processed turn appends exactly the user message and then the
assistant message at the end of the session's message list; all previously
stored messages stay, unchanged and in order. -/
theorem turn_appends_user_then_assistant (o : Oracles) (req : ChatRequest)
    (conversation : Conversation)
    (result : Conversation × Option String × ChatResponse)
    (h : process_turn_body o req conversation = Except.ok result) :
    ∃ assistant, result.1.messages =
      conversation.messages ++ [user_message req.message o.now, assistant] ∧
      assistant.role = "assistant" := by
  unfold process_turn_body at h
  simp only [] at h
  repeat split at h
  all_goals try exact Except.noConfusion h
  all_goals
    rename_i conversation3 heq
    cases Except.ok.inj h
    rw [update_context_messages _ _ _ _ heq]
    exact exists_assistant_append _ _ _ rfl

def c8_req : ChatRequest := { message := "hello", user_id := "u" }

def c8_oracles : Oracles := { now := "t0" }

def c8_conv : Conversation := new_conversation "u" "None" "t0"

/-- Concrete successful turn used to witness C8: no collaborators
configured, so the fallback classifier and template composer run. -/
def c8_result : Conversation × Option String × ChatResponse :=
  (process_turn_body c8_oracles c8_req c8_conv).toOption.getD
    (c8_conv, none, { message := "" })

/-- Witness for C8: at the concrete turn the message list ends with the user
and assistant messages in order. -/
theorem turn_appends_user_then_assistant_witness :
    ∃ assistant, c8_result.1.messages =
      c8_conv.messages ++ [user_message c8_req.message c8_oracles.now,
        assistant] ∧
      assistant.role = "assistant" :=
  turn_appends_user_then_assistant c8_oracles c8_req c8_conv c8_result rfl

end Plotari
